import Mathlib

/-
Verification development for the Waylist trip-log bot (src/main.py).

The Python source is shallowly embedded below:
* time parsing (`datetime.strptime` with format "%H:%M") is modelled by
  `parseHM`, mirroring the CPython strptime regular expression
  `(2[0-3]|[0-1]\d|\d):( [0-5]\d|\d)` anchored on both sides: exactly one
  colon, one- or two-digit hour at most 23, one- or two-digit minute at
  most 59;
* Python floats are modelled as rationals (ℚ); `round(x, 2)` is modelled
  by `round2` (for the minute-granularity values produced by
  `calculate_hours`, `x * 100` is never a half-integer, so round-half-up
  and the Python round-half-even rule agree on the exact values);
* the per-user FSM session (an aiogram `FSMContext` dictionary) is the
  record `WaybillData`; absent dictionary keys read through `.get(k, 0)`
  are modelled by fields initialised to 0 in `emptyData`;
* an incoming message text is classified into `Msg`: the cancel button,
  the skip button, each choice-button label, an arbitrary text, or a text
  accepted by `validate_number` (Python `float(text)` succeeds) together
  with its parsed value;
* each `@router.message(WaybillStates...)` handler becomes a function
  `WaybillData → Msg → Step`, where `Step.stay` is the handler returning
  after an error reply without `update_data`/`set_state` (re-prompt at
  the same stage), `Step.next` is `set_state` to a new stage with updated
  data, `Step.finish` is the call to `save_and_show_waybill`,
  `Step.cancelled` and `Step.abort` are the `state.clear()` exits;
* the sqlite gateway is modelled by pure functions over list-backed
  tables, with a boolean `dbError` standing for an arbitrary storage
  exception caught by the `except` clauses.
-/

namespace Waylist

/-- Split a character list on the colon character; the pieces appear in
order and never contain a colon.  Models the single literal `:` in the
strptime format string. -/
def splitColon : List Char → List (List Char)
  | [] => [[]]
  | c :: rest =>
    match splitColon rest with
    | [] => [[]]
    | g :: gs => if c = ':' then [] :: g :: gs else (c :: g) :: gs

/-- Value of a nonempty all-ASCII-digit character group, else `none`.
Models one `\d`-group of the strptime regular expression. -/
def digitsVal (cs : List Char) : Option Nat :=
  if cs.isEmpty then none
  else if cs.all Char.isDigit then
    some (cs.foldl (fun acc c => acc * 10 + (c.toNat - 48)) 0)
  else none

/-- Model of `datetime.strptime(s, "%H:%M")`: `some (hour, minute)` when
the whole string matches, `none` when the call raises `ValueError`. -/
def parseHM (s : String) : Option (Nat × Nat) :=
  match splitColon s.toList with
  | [hs, ms] =>
    match digitsVal hs, digitsVal ms with
    | some h, some m =>
      if hs.length ≤ 2 ∧ ms.length ≤ 2 ∧ h ≤ 23 ∧ m ≤ 59 then some (h, m)
      else none
    | _, _ => none
  | _ => none

/-- Model of `validate_time` (src/main.py:645): strptime succeeds. -/
def validate_time (time_str : String) : Bool :=
  (parseHM time_str).isSome

/-- Model of Python `round(x, 2)` on the exact value. -/
def round2 (x : ℚ) : ℚ :=
  ((round (x * 100) : ℤ) : ℚ) / 100

/-- Model of `calculate_hours` (src/main.py:629): parse both times, add a
day when `end < start`, return the elapsed hours rounded to 2 decimals;
any parse failure is caught and yields `0.0`. -/
def calculate_hours (start_time end_time : String) : ℚ :=
  match parseHM start_time, parseHM end_time with
  | some s, some e =>
    let sm := s.1 * 60 + s.2
    let em := e.1 * 60 + e.2
    let d : Nat := if em < sm then em + 1440 - sm else em - sm
    round2 ((d : ℚ) / 60)
  | _, _ => 0

/-- Per-user FSM session payload for the create-waybill flow.  Fields
mirror the keys written through `state.update_data` in src/main.py; a key
that has not been written yet reads as its `emptyData` value, mirroring
the `data.get(key, default)` accesses. -/
structure WaybillData where
  vehicle_id : Nat
  user_id : Nat
  vehicle_number : String
  fuel_rate : ℚ
  idle_rate : ℚ
  previous_odo : ℚ
  previous_fuel : ℚ
  previous_date : String
  start_time : Option String
  end_time : Option String
  hours : ℚ
  odo_start : ℚ
  odo_end : ℚ
  distance : ℚ
  fuel_start : ℚ
  fuel_end : ℚ
  fuel_refuel : ℚ
  fuel_norm : ℚ
  fuel_actual : ℚ
  overuse : ℚ
  overuse_hours : ℚ
  overuse_calculated : Nat
  economy : ℚ
  fuel_end_manual : Nat
  date : String
deriving Repr

/-- Fresh session data: every numeric key reads 0, every string key is
absent, matching the `data.get(k, 0)` / `data.get(k)` defaults. -/
def emptyData : WaybillData :=
  ⟨0, 0, "", 0, 0, 0, 0, "", none, none, 0, 0, 0, 0, 0, 0, 0, 0, 0, 0, 0, 0, 0, 0, ""⟩

/-- Conversation stages of `WaybillStates` (src/main.py:503).  The model
enters at `start_time` or `initial_data_choice` via `startWaybill`
(vehicle selection having succeeded). -/
inductive Stage where
  | start_time
  | initial_data_choice
  | odo_start
  | fuel_start
  | end_time
  | odo_end
  | overuse_choice
  | overuse_hours
  | overuse_manual
  | economy
  | fuel_end_choice
  | fuel_refuel
  | fuel_end_manual
deriving DecidableEq, Repr

/-- Classification of an inbound message text.  `num q` stands for a text
accepted by `validate_number` (Python `float(text)` succeeds) whose parsed
value is `q`; `text s` stands for any other text (used by the time
stages); the remaining constructors are the exact button labels.  The
button labels, the skip and cancel tokens and the `num` texts are
pairwise distinct strings, which the constructors reflect. -/
inductive Msg where
  | cancel
  | skip
  | usePrev
  | enterManual
  | calcIdle
  | manualOveruse
  | noOveruse
  | autoCalc
  | manualEnd
  | addRefuel
  | text (s : String)
  | num (q : ℚ)

/-- Outcome of one handler invocation.  `stay` is the handler returning
after an error reply, with no `update_data` and no `set_state` (the same
prompt re-issues); `next` is `set_state` to a new stage with the updated
session; `finish` is the call to `save_and_show_waybill` with the final
session data; `cancelled` and `abort` are the `state.clear()` exits. -/
inductive Step where
  | stay
  | cancelled
  | abort
  | next (st : Stage) (d : WaybillData)
  | finish (d : WaybillData)

/-- Session data carried by a `next` outcome, if any. -/
def Step.nextData : Step → Option WaybillData
  | .next _ d => some d
  | _ => none

/-- Session data carried by a `finish` outcome (the record handed to
`save_waybill`), if any. -/
def Step.savedData : Step → Option WaybillData
  | .finish d => some d
  | _ => none

/-- Handler for `WaybillStates.start_time` (src/main.py:1208). -/
def waybill_start_time (d : WaybillData) (m : Msg) : Step :=
  match m with
  | .cancel => .cancelled
  | .text s =>
    if validate_time s then .next .odo_start { d with start_time := some s }
    else .stay
  | _ => .stay

/-- Handler for `WaybillStates.initial_data_choice` (src/main.py:1380):
reusing the data of the previous day copies the stored `previous_odo` and
`previous_fuel` into `odo_start`/`fuel_start`. -/
def waybill_initial_data_choice (d : WaybillData) (m : Msg) : Step :=
  match m with
  | .cancel => .cancelled
  | .usePrev =>
    .next .start_time { d with odo_start := d.previous_odo, fuel_start := d.previous_fuel }
  | .enterManual => .next .odo_start d
  | _ => .stay

/-- Handler for `WaybillStates.odo_start` (src/main.py:1232). -/
def waybill_odo_start (d : WaybillData) (m : Msg) : Step :=
  match m with
  | .cancel => .cancelled
  | .num q => if q < 0 then .stay else .next .fuel_start { d with odo_start := q }
  | _ => .stay

/-- Handler for `WaybillStates.fuel_start` (src/main.py:1261). -/
def waybill_fuel_start (d : WaybillData) (m : Msg) : Step :=
  match m with
  | .cancel => .cancelled
  | .num q => if q < 0 then .stay else .next .end_time { d with fuel_start := q }
  | _ => .stay

/-- Handler for `WaybillStates.end_time` (src/main.py:1295): validates the
time, aborts the flow when no start time is stored, otherwise computes the
elapsed hours via `calculate_hours`. -/
def waybill_end_time (d : WaybillData) (m : Msg) : Step :=
  match m with
  | .cancel => .cancelled
  | .text s =>
    if validate_time s then
      match d.start_time with
      | none => .abort
      | some st0 => .next .odo_end { d with end_time := some s, hours := calculate_hours st0 s }
    else .stay
  | _ => .stay

/-- Handler for `WaybillStates.odo_end` (src/main.py:1331): rejects a
reading below the start reading, otherwise derives the distance and the
norm fuel consumption `distance * fuel_rate` (the `fuel_rate` of the
vehicle is liters per km in this revision). -/
def waybill_odo_end (d : WaybillData) (m : Msg) : Step :=
  match m with
  | .cancel => .cancelled
  | .num q =>
    if q < d.odo_start then .stay
    else
      .next .overuse_choice
        { d with odo_end := q, distance := q - d.odo_start,
                 fuel_norm := (q - d.odo_start) * d.fuel_rate }
  | _ => .stay

/-- Handler for `WaybillStates.overuse_choice` (src/main.py:1419). -/
def waybill_overuse_choice (d : WaybillData) (m : Msg) : Step :=
  match m with
  | .cancel => .cancelled
  | .calcIdle => .next .overuse_hours d
  | .manualOveruse => .next .overuse_manual d
  | .noOveruse =>
    .next .economy { d with overuse := 0, overuse_hours := 0, overuse_calculated := 0 }
  | _ => .stay

/-- Handler for `WaybillStates.overuse_hours` (src/main.py:1467): idle
hours are rejected when negative, otherwise the overuse is
`overuse_hours * idle_rate`.  The source reads the rate through
`data.get(..., 2.0)`; the flow always stores the rate of the selected
vehicle before this stage is reachable, so the field read is exact on
every session this model ever feeds to the handler. -/
def waybill_overuse_hours (d : WaybillData) (m : Msg) : Step :=
  match m with
  | .cancel => .cancelled
  | .skip => .next .economy { d with overuse_hours := 0, overuse_calculated := 0, overuse := 0 }
  | .num q =>
    if q < 0 then .stay
    else
      .next .economy
        { d with overuse_hours := q, overuse_calculated := 1, overuse := q * d.idle_rate }
  | _ => .stay

/-- Handler for `WaybillStates.overuse_manual` (src/main.py:1513). -/
def waybill_overuse_manual (d : WaybillData) (m : Msg) : Step :=
  match m with
  | .cancel => .cancelled
  | .num q =>
    if q < 0 then .stay
    else .next .economy { d with overuse := q, overuse_hours := 0, overuse_calculated := 0 }
  | _ => .stay

/-- Handler for `WaybillStates.economy` (src/main.py:1547). -/
def waybill_economy (d : WaybillData) (m : Msg) : Step :=
  match m with
  | .cancel => .cancelled
  | .skip => .next .fuel_end_choice { d with economy := 0 }
  | .num q =>
    if q < 0 then .stay else .next .fuel_end_choice { d with economy := q }
  | _ => .stay

/-- Handler for `WaybillStates.fuel_end_choice` (src/main.py:1585): the
auto branch computes `fuel_actual = fuel_norm + overuse - economy` and
`fuel_end = fuel_start - fuel_actual`, re-prompting when the balance is
negative, and otherwise saves; the two other branches advance to the
manual-entry or refuel stages. -/
def waybill_fuel_end_choice (d : WaybillData) (m : Msg) : Step :=
  match m with
  | .cancel => .cancelled
  | .autoCalc =>
    let fuel_actual := d.fuel_norm + d.overuse - d.economy
    let fuel_end := d.fuel_start - fuel_actual
    if fuel_end < 0 then .stay
    else .finish { d with fuel_actual := fuel_actual, fuel_end := fuel_end, fuel_end_manual := 0 }
  | .manualEnd => .next .fuel_end_manual d
  | .addRefuel => .next .fuel_refuel d
  | _ => .stay

/-- Handler for `WaybillStates.fuel_refuel` (src/main.py:1641). -/
def waybill_fuel_refuel (d : WaybillData) (m : Msg) : Step :=
  match m with
  | .cancel => .cancelled
  | .num q =>
    if q < 0 then .stay else .next .fuel_end_manual { d with fuel_refuel := q }
  | _ => .stay

/-- Handler for `WaybillStates.fuel_end_manual` (src/main.py:1669): the
entered ending balance is rejected when negative; otherwise the actual
consumption is back-derived as `fuel_start + fuel_refuel - fuel_end` and
the waybill is saved with the manual flag set. -/
def waybill_fuel_end_manual (d : WaybillData) (m : Msg) : Step :=
  match m with
  | .cancel => .cancelled
  | .num q =>
    if q < 0 then .stay
    else
      .finish
        { d with fuel_end := q, fuel_actual := d.fuel_start + d.fuel_refuel - q,
                 fuel_end_manual := 1 }
  | _ => .stay

/-- Stage dispatch: route a message to the handler registered for the
current stage of the session. -/
def stepWaybill (st : Stage) (d : WaybillData) (m : Msg) : Step :=
  match st with
  | .start_time => waybill_start_time d m
  | .initial_data_choice => waybill_initial_data_choice d m
  | .odo_start => waybill_odo_start d m
  | .fuel_start => waybill_fuel_start d m
  | .end_time => waybill_end_time d m
  | .odo_end => waybill_odo_end d m
  | .overuse_choice => waybill_overuse_choice d m
  | .overuse_hours => waybill_overuse_hours d m
  | .overuse_manual => waybill_overuse_manual d m
  | .economy => waybill_economy d m
  | .fuel_end_choice => waybill_fuel_end_choice d m
  | .fuel_refuel => waybill_fuel_refuel d m
  | .fuel_end_manual => waybill_fuel_end_manual d m

/-- Run a sequence of messages through the flow; `some d` is the record
handed to `save_waybill` when the flow reaches the terminal save, `none`
when it cancels, aborts or runs out of messages. -/
def runMsgs : Stage → WaybillData → List Msg → Option WaybillData
  | _, _, [] => none
  | st, d, m :: ms =>
    match stepWaybill st d m with
    | .finish d' => some d'
    | .next st' d' => runMsgs st' d' ms
    | .stay => runMsgs st d ms
    | .cancelled => none
    | .abort => none

/-- Session data after one step, when the step advances or finishes;
otherwise the unchanged data.  Convenience for naming intermediate states
of a concrete run. -/
def stepData (st : Stage) (d : WaybillData) (m : Msg) : WaybillData :=
  match stepWaybill st d m with
  | .next _ d' => d'
  | .finish d' => d'
  | _ => d

/-- Row of the `vehicles` table (src/main.py:131). -/
structure Vehicle where
  id : Nat
  number : String
  fuel_rate : ℚ
  idle_rate : ℚ

/-- The CHECK constraints of the `vehicles` table: `fuel_rate` in (0, 5]
liters per km and `idle_rate` in (0, 10] liters per hour; the add-vehicle
flow enforces the same bounds before inserting. -/
def VehicleOK (v : Vehicle) : Prop :=
  0 < v.fuel_rate ∧ v.fuel_rate ≤ 5 ∧ 0 < v.idle_rate ∧ v.idle_rate ≤ 10

/-- The columns of the most recent waybill read by `get_last_waybill`
(src/main.py:354). -/
structure LastWaybill where
  odo_end : ℚ
  fuel_end : ℚ
  date : String

/-- Stored waybill rows carry non-negative odometer and fuel-end values
(the flow only saves such values, see the invariant theorems below). -/
def LastOK : Option LastWaybill → Prop
  | none => True
  | some lw => 0 ≤ lw.odo_end ∧ 0 ≤ lw.fuel_end

/-- Entry into the create-waybill flow: the `new_waybill` button handler
(src/main.py:1120) followed by a successful vehicle selection
(`waybill_vehicle_selected`, src/main.py:1140).  Neither handler calls
`state.clear()`, and `state.update_data` merges into whatever session
`d` already exists, so the entry overwrites only the vehicle fields (and
the previous-waybill seeds when one exists) and keeps every other field
of `d`.  A fresh entry passes `emptyData`; since the button handler has
no state filter it also fires mid-flow, in which case `d` is the
abandoned session and its remaining fields (for example a previously
entered `fuel_refuel`) leak into the new flow.  When a previous waybill
exists its ending odometer and fuel seed `previous_odo`/`previous_fuel`
and the flow starts at the reuse-choice stage, otherwise at the
start-time stage. -/
def startWaybill (d : WaybillData) (v : Vehicle) (user : Nat) (last : Option LastWaybill) :
    Stage × WaybillData :=
  let d0 := { d with
    vehicle_id := v.id, vehicle_number := v.number,
    fuel_rate := v.fuel_rate, idle_rate := v.idle_rate, user_id := user }
  match last with
  | some lw =>
    (.initial_data_choice,
      { d0 with previous_odo := lw.odo_end, previous_fuel := lw.fuel_end,
                previous_date := lw.date })
  | none => (.start_time, d0)

/-- States of the create-waybill flow reachable from a fresh-session
entry (a vehicle satisfying the table constraints, a previous waybill
with non-negative stored values) through any sequence of messages,
including mid-flow restarts: the `new_waybill` button has no state
filter and clears nothing, so from any reachable session a new entry can
be made that merges into the abandoned session (`reenter`). -/
inductive Reachable : Stage → WaybillData → Prop where
  | init (v : Vehicle) (user : Nat) (last : Option LastWaybill)
      (hv : VehicleOK v) (hl : LastOK last) :
      Reachable (startWaybill emptyData v user last).1 (startWaybill emptyData v user last).2
  | step (st : Stage) (d : WaybillData) (m : Msg) (st' : Stage) (d' : WaybillData)
      (h : Reachable st d) (he : stepWaybill st d m = Step.next st' d') :
      Reachable st' d'
  | reenter (st : Stage) (d : WaybillData) (v : Vehicle) (user : Nat)
      (last : Option LastWaybill) (hv : VehicleOK v) (hl : LastOK last)
      (h : Reachable st d) :
      Reachable (startWaybill d v user last).1 (startWaybill d v user last).2

/-- Uppercase a string, modelling Python `str.upper` on the plate text. -/
def strUpper (s : String) : String := String.mk (s.toList.map Char.toUpper)

/-- The `vehicles` table together with the next AUTOINCREMENT id. -/
structure VehiclesDB where
  rows : List Vehicle
  nextId : Nat

namespace Database

/-- Model of `Database.add_vehicle` (src/main.py:195): `dbError` stands
for an arbitrary storage exception (caught, returns `None`); inserting a
plate that is already present raises `sqlite3.IntegrityError` via the
UNIQUE constraint, which is caught separately (logged as a warning rather
than an error) but likewise returns `None`; a successful insert commits
the uppercased plate and returns the new row id. -/
def add_vehicle (dbError : Bool) (db : VehiclesDB) (number : String)
    (fuel_rate : ℚ) (idle_rate : ℚ) : Option Nat × VehiclesDB :=
  if dbError then (none, db)
  else if db.rows.any (fun v => v.number == strUpper number) then (none, db)
  else
    (some db.nextId,
      ⟨db.rows ++ [⟨db.nextId, strUpper number, fuel_rate, idle_rate⟩], db.nextId + 1⟩)

/-- The `waybills` table together with the next AUTOINCREMENT id. -/
structure WaybillsDB where
  rows : List WaybillData
  nextId : Nat

/-- Model of `Database.save_waybill` (src/main.py:377): any storage error
is caught and surfaces as `None`, otherwise the record is inserted and
the new row id returned. -/
def save_waybill (dbError : Bool) (db : WaybillsDB) (d : WaybillData) :
    Option Nat × WaybillsDB :=
  if dbError then (none, db) else (some db.nextId, ⟨db.rows ++ [d], db.nextId + 1⟩)

end Database

/-- The reply emitted by the terminal stage: either the saved summary
(with the specific consumption figure, guarded against zero distance) or
the save-failure message. -/
structure Reply where
  saved : Bool
  specific_consumption : ℚ

/-- Model of `save_and_show_waybill` (src/main.py:661): invoke
`save_waybill`; on success emit the summary (with
`fuel_actual / distance * 100` when the distance is positive, else 0),
on failure emit the error message; in either case the session is cleared
(`state.clear()` runs after both branches).  The third component is the
per-user session after the call. -/
def save_and_show_waybill (dbError : Bool) (db : Database.WaybillsDB) (d : WaybillData) :
    Reply × Database.WaybillsDB × Option (Stage × WaybillData) :=
  let r := Database.save_waybill dbError db d
  match r.1 with
  | some _ =>
    (⟨true, if d.distance > 0 then d.fuel_actual / d.distance * 100 else 0⟩, r.2, none)
  | none => (⟨false, 0⟩, r.2, none)

/-- Vehicle used by the concrete reachable run below. -/
def vW : Vehicle := ⟨1, "B777KX", 1, 2⟩

/-- Session on fresh entry for `vW` with no previous waybill. -/
def wb0 : WaybillData := (startWaybill emptyData vW 7 none).2

/-- Session after entering the start time. -/
def wb1 : WaybillData := stepData Stage.start_time wb0 (Msg.text "08:00")

/-- Session after entering the starting odometer. -/
def wb2 : WaybillData := stepData Stage.odo_start wb1 (Msg.num 0)

/-- Session after entering the starting fuel. -/
def wb3 : WaybillData := stepData Stage.fuel_start wb2 (Msg.num 10)

/-- Session after entering the end time. -/
def wb4 : WaybillData := stepData Stage.end_time wb3 (Msg.text "17:00")

/-- Session after entering the ending odometer. -/
def wb5 : WaybillData := stepData Stage.odo_end wb4 (Msg.num 0)

/-- Session after choosing no overuse. -/
def wb6 : WaybillData := stepData Stage.overuse_choice wb5 Msg.noOveruse

/-- Session after skipping the economy entry. -/
def wb7 : WaybillData := stepData Stage.economy wb6 Msg.skip

/-- Session after choosing manual fuel-end entry. -/
def wb8 : WaybillData := stepData Stage.fuel_end_choice wb7 Msg.manualEnd

/-- The record saved after entering an ending fuel balance of 4 liters. -/
def wb9 : WaybillData := stepData Stage.fuel_end_manual wb8 (Msg.num 4)

/-- Session after choosing the refuel branch instead (from `wb7`). -/
def sc1 : WaybillData := stepData Stage.fuel_end_choice wb7 Msg.addRefuel

/-- Session after entering a refuel of 20 liters. -/
def sc2 : WaybillData := stepData Stage.fuel_refuel sc1 (Msg.num 20)

/-- Session after a mid-flow restart: the new-waybill button fires while
the session sits at the manual fuel-end stage, and the entry merges into
the abandoned session, keeping its refuel of 20 liters. -/
def sc3 : WaybillData := (startWaybill sc2 vW 7 none).2

/-- Restarted flow: start time entered again. -/
def sc4 : WaybillData := stepData Stage.start_time sc3 (Msg.text "08:00")

/-- Restarted flow: starting odometer entered again. -/
def sc5 : WaybillData := stepData Stage.odo_start sc4 (Msg.num 0)

/-- Restarted flow: starting fuel entered again. -/
def sc6 : WaybillData := stepData Stage.fuel_start sc5 (Msg.num 10)

/-- Restarted flow: end time entered again. -/
def sc7 : WaybillData := stepData Stage.end_time sc6 (Msg.text "17:00")

/-- Restarted flow: ending odometer entered again. -/
def sc8 : WaybillData := stepData Stage.odo_end sc7 (Msg.num 0)

/-- Restarted flow: no overuse chosen. -/
def sc9 : WaybillData := stepData Stage.overuse_choice sc8 Msg.noOveruse

/-- Restarted flow at the fuel-end choice, still carrying the stale
refuel of 20 liters from the abandoned flow. -/
def sc10 : WaybillData := stepData Stage.economy sc9 Msg.skip

/-- Session at the manual fuel-end stage with 10 liters of starting fuel
and a refuel of 3 liters. -/
def dC2w : WaybillData := { emptyData with fuel_start := 10, fuel_refuel := 3 }

/-- Record saved from `dC2w` after entering an ending balance of 4. -/
def dC2w' : WaybillData :=
  { dC2w with fuel_end := 4, fuel_actual := dC2w.fuel_start + dC2w.fuel_refuel - 4,
              fuel_end_manual := 1 }

/-- Session at the fuel-end choice with norm 20, overuse 10, economy 3,
starting fuel 50 and no refuel. -/
def dC2a : WaybillData :=
  { emptyData with fuel_start := 50, fuel_norm := 20, overuse := 10, economy := 3 }

/-- Record saved from `dC2a` by the auto-computed branch. -/
def dC2a' : WaybillData :=
  { dC2a with fuel_actual := dC2a.fuel_norm + dC2a.overuse - dC2a.economy,
              fuel_end := dC2a.fuel_start - (dC2a.fuel_norm + dC2a.overuse - dC2a.economy),
              fuel_end_manual := 0 }

/-- Session with a stored starting odometer of 100 km. -/
def dC5 : WaybillData := { emptyData with odo_start := 100 }

/-- Session with the vehicle fuel rate of the spec example. -/
def dC1 : WaybillData := { emptyData with fuel_rate := 10 }

/-- Session with a vehicle fuel rate of 0.1 liters per km. -/
def dC1w : WaybillData := { emptyData with fuel_rate := 1/10 }

/-- Session holding the arithmetic example values norm 20, overuse 10,
economy 3 with 50 liters of starting fuel. -/
def dC3 : WaybillData :=
  { emptyData with fuel_start := 50, fuel_norm := 20, overuse := 10, economy := 3 }

/-- Vehicle with a fuel rate of 1 liter per km for the negative-actual
run. -/
def vC6 : Vehicle := ⟨2, "E001KX", 1, 2⟩

/-- Accepted inputs driving a full flow into the manual fuel-end path
with an ending balance larger than the available fuel. -/
def msgsC6 : List Msg :=
  [Msg.text "08:00", Msg.num 0, Msg.num 10, Msg.text "17:00",
   Msg.num 10, Msg.noOveruse, Msg.skip, Msg.manualEnd, Msg.num 50]

/-- Vehicle with a fuel rate of 0.5 liters per km for the refuel-field
run. -/
def vC2 : Vehicle := ⟨3, "M555AA", 1/2, 2⟩

/-- Accepted inputs driving a full flow into the manual fuel-end path
without ever visiting the refuel stage. -/
def msgsC2 : List Msg :=
  [Msg.text "08:00", Msg.num 0, Msg.num 10, Msg.text "17:00",
   Msg.num 10, Msg.noOveruse, Msg.skip, Msg.manualEnd, Msg.num 50]

/-- A vehicles table already containing the plate A123. -/
def dbDup : VehiclesDB := ⟨[⟨1, "A123", 1, 2⟩], 2⟩

/-- An empty vehicles table. -/
def dbEmpty : VehiclesDB := ⟨[], 1⟩

/-- Two-character zero-padded decimal rendering of a number below 100. -/
def padTwo (n : Nat) : List Char :=
  if n < 10 then ['0', Char.ofNat (48 + n)]
  else [Char.ofNat (48 + n / 10), Char.ofNat (48 + n % 10)]

/-- Hour and minute produced by a successful strptime parse are in range. -/
theorem parseHM_bounds {s : String} {h m : Nat} (hp : parseHM s = some (h, m)) :
    h ≤ 23 ∧ m ≤ 59 := by
  unfold parseHM at hp
  split at hp
  · split at hp
    · split_ifs at hp with hb
      simp only [Option.some.injEq, Prod.mk.injEq] at hp
      obtain ⟨rfl, rfl⟩ := hp
      exact ⟨hb.2.2.1, hb.2.2.2⟩
    · exact absurd hp (by simp)
  · exact absurd hp (by simp)

/-- Rounding a non-negative value to two decimals is non-negative. -/
theorem round2_nonneg {x : ℚ} (hx : 0 ≤ x) : 0 ≤ round2 x := by
  unfold round2
  have h1 : (0:ℤ) ≤ round (x * 100) := by
    rw [round_eq]
    exact Int.le_floor.mpr (by push_cast; linarith)
  exact div_nonneg (by exact_mod_cast h1) (by norm_num)

/-- Rounding a value of at least one hundredth to two decimals is
positive. -/
theorem round2_pos {x : ℚ} (hx : 1/100 ≤ x) : 0 < round2 x := by
  unfold round2
  have h1 : (1:ℤ) ≤ round (x * 100) := by
    rw [round_eq]
    exact Int.le_floor.mpr (by push_cast; linarith)
  have h2 : (1:ℚ) ≤ ((round (x * 100) : ℤ) : ℚ) := by exact_mod_cast h1
  have : (0:ℚ) < 100 := by norm_num
  exact div_pos (by linarith) this

/-- Rounding a value of at most 1439/60 hours to two decimals stays at
most 24. -/
theorem round2_le24 {x : ℚ} (hx : x ≤ 1439/60) : round2 x ≤ 24 := by
  unfold round2
  have h1 : round (x * 100) ≤ 2399 := by
    rw [round_eq]
    calc ⌊x * 100 + 1/2⌋ ≤ ⌊(2399:ℚ)⌋ := Int.floor_le_floor (by linarith)
      _ = 2399 := by norm_num
  have h2 : ((round (x * 100) : ℤ) : ℚ) ≤ 2399 := by exact_mod_cast h1
  linarith

/-- Rounding a non-negative value to two decimals gives a natural number
of hundredths. -/
theorem round2_hundredths {x : ℚ} (hx : 0 ≤ x) : ∃ k : ℕ, round2 x = (k:ℚ)/100 := by
  have h1 : (0:ℤ) ≤ round (x * 100) := by
    rw [round_eq]
    exact Int.le_floor.mpr (by push_cast; linarith)
  refine ⟨(round (x * 100)).toNat, ?_⟩
  unfold round2
  congr 1
  exact_mod_cast (Int.toNat_of_nonneg h1).symm

/-- Rounding zero to two decimals gives zero. -/
theorem round2_zero : round2 0 = 0 := by
  unfold round2
  norm_num [round_eq]

/-- The elapsed-hours computation never returns a negative value. -/
theorem calculate_hours_nonneg (s e : String) : 0 ≤ calculate_hours s e := by
  unfold calculate_hours
  rcases parseHM s with _ | p <;> rcases parseHM e with _ | q <;> simp
  exact round2_nonneg (by positivity)

/-- Invariant carried by every reachable session of the create-waybill
flow, mid-flow restarts included: all accumulated quantities are
non-negative.  Nothing is claimed about which fields are still at their
defaults — a restarted flow inherits arbitrary guarded values (such as a
non-zero refuel) from the abandoned session. -/
structure Inv (d : WaybillData) : Prop where
  odo_start_nonneg : 0 ≤ d.odo_start
  fuel_start_nonneg : 0 ≤ d.fuel_start
  distance_nonneg : 0 ≤ d.distance
  fuel_norm_nonneg : 0 ≤ d.fuel_norm
  overuse_nonneg : 0 ≤ d.overuse
  overuse_hours_nonneg : 0 ≤ d.overuse_hours
  economy_nonneg : 0 ≤ d.economy
  fuel_refuel_nonneg : 0 ≤ d.fuel_refuel
  hours_nonneg : 0 ≤ d.hours
  fuel_rate_nonneg : 0 ≤ d.fuel_rate
  idle_rate_nonneg : 0 ≤ d.idle_rate
  previous_odo_nonneg : 0 ≤ d.previous_odo
  previous_fuel_nonneg : 0 ≤ d.previous_fuel

/-- The fresh session satisfies the invariant. -/
theorem inv_empty : Inv emptyData :=
  ⟨le_rfl, le_rfl, le_rfl, le_rfl, le_rfl, le_rfl, le_rfl, le_rfl, le_rfl, le_rfl,
   le_rfl, le_rfl, le_rfl⟩

/-- Entering the flow over any invariant-satisfying session (a fresh one
or an abandoned mid-flow session) preserves the invariant: the entry
overwrites only the vehicle rates and the previous-waybill seeds, all of
which are non-negative by the table constraints. -/
theorem inv_start {d : WaybillData} {v : Vehicle} {last : Option LastWaybill} (user : Nat)
    (hv : VehicleOK v) (hl : LastOK last) (hd : Inv d) :
    Inv (startWaybill d v user last).2 := by
  obtain ⟨h1, h2, h3, h4, h5, h6, h7, h8, h9, h10, h11, h12, h13⟩ := hd
  obtain ⟨hf1, _, hi1, _⟩ := hv
  cases last with
  | none =>
    exact ⟨h1, h2, h3, h4, h5, h6, h7, h8, h9, le_of_lt hf1, le_of_lt hi1, h12, h13⟩
  | some lw =>
    exact ⟨h1, h2, h3, h4, h5, h6, h7, h8, h9, le_of_lt hf1, le_of_lt hi1, hl.1, hl.2⟩

/-- One advancing step of the flow preserves the invariant. -/
theorem inv_step {st : Stage} {d : WaybillData} {m : Msg} {st' : Stage} {d' : WaybillData}
    (hI : Inv d) (he : stepWaybill st d m = Step.next st' d') : Inv d' := by
  obtain ⟨h1, h2, h3, h4, h5, h6, h7, h8, h9, h10, h11, h12, h13⟩ := hI
  cases st
  case start_time =>
    cases m <;> simp only [stepWaybill, waybill_start_time] at he <;>
      try exact Step.noConfusion he
    case text s =>
      split_ifs at he
      injection he with hA hB
      subst hA; subst hB
      exact ⟨h1, h2, h3, h4, h5, h6, h7, h8, h9, h10, h11, h12, h13⟩
  case initial_data_choice =>
    cases m <;> simp only [stepWaybill, waybill_initial_data_choice] at he <;>
      try exact Step.noConfusion he
    case usePrev =>
      injection he with hA hB
      subst hA; subst hB
      exact ⟨h12, h13, h3, h4, h5, h6, h7, h8, h9, h10, h11, h12, h13⟩
    case enterManual =>
      injection he with hA hB
      subst hA; subst hB
      exact ⟨h1, h2, h3, h4, h5, h6, h7, h8, h9, h10, h11, h12, h13⟩
  case odo_start =>
    cases m <;> simp only [stepWaybill, waybill_odo_start] at he <;>
      try exact Step.noConfusion he
    case num q =>
      split_ifs at he with hq
      injection he with hA hB
      subst hA; subst hB
      exact ⟨not_lt.mp hq, h2, h3, h4, h5, h6, h7, h8, h9, h10, h11, h12, h13⟩
  case fuel_start =>
    cases m <;> simp only [stepWaybill, waybill_fuel_start] at he <;>
      try exact Step.noConfusion he
    case num q =>
      split_ifs at he with hq
      injection he with hA hB
      subst hA; subst hB
      exact ⟨h1, not_lt.mp hq, h3, h4, h5, h6, h7, h8, h9, h10, h11, h12, h13⟩
  case end_time =>
    cases m <;> simp only [stepWaybill, waybill_end_time] at he <;>
      try exact Step.noConfusion he
    case text s =>
      split_ifs at he
      cases hst : d.start_time with
      | none => rw [hst] at he; exact Step.noConfusion he
      | some st0 =>
        rw [hst] at he
        injection he with hA hB
        subst hA; subst hB
        exact ⟨h1, h2, h3, h4, h5, h6, h7, h8, calculate_hours_nonneg st0 s,
          h10, h11, h12, h13⟩
  case odo_end =>
    cases m <;> simp only [stepWaybill, waybill_odo_end] at he <;>
      try exact Step.noConfusion he
    case num q =>
      split_ifs at he with hq
      injection he with hA hB
      subst hA; subst hB
      exact ⟨h1, h2, sub_nonneg.mpr (not_lt.mp hq),
        mul_nonneg (sub_nonneg.mpr (not_lt.mp hq)) h10,
        h5, h6, h7, h8, h9, h10, h11, h12, h13⟩
  case overuse_choice =>
    cases m <;> simp only [stepWaybill, waybill_overuse_choice] at he <;>
      try exact Step.noConfusion he
    case calcIdle =>
      injection he with hA hB
      subst hA; subst hB
      exact ⟨h1, h2, h3, h4, h5, h6, h7, h8, h9, h10, h11, h12, h13⟩
    case manualOveruse =>
      injection he with hA hB
      subst hA; subst hB
      exact ⟨h1, h2, h3, h4, h5, h6, h7, h8, h9, h10, h11, h12, h13⟩
    case noOveruse =>
      injection he with hA hB
      subst hA; subst hB
      exact ⟨h1, h2, h3, h4, le_rfl, le_rfl, h7, h8, h9, h10, h11, h12, h13⟩
  case overuse_hours =>
    cases m <;> simp only [stepWaybill, waybill_overuse_hours] at he <;>
      try exact Step.noConfusion he
    case skip =>
      injection he with hA hB
      subst hA; subst hB
      exact ⟨h1, h2, h3, h4, le_rfl, le_rfl, h7, h8, h9, h10, h11, h12, h13⟩
    case num q =>
      split_ifs at he with hq
      injection he with hA hB
      subst hA; subst hB
      exact ⟨h1, h2, h3, h4, mul_nonneg (not_lt.mp hq) h11, not_lt.mp hq,
        h7, h8, h9, h10, h11, h12, h13⟩
  case overuse_manual =>
    cases m <;> simp only [stepWaybill, waybill_overuse_manual] at he <;>
      try exact Step.noConfusion he
    case num q =>
      split_ifs at he with hq
      injection he with hA hB
      subst hA; subst hB
      exact ⟨h1, h2, h3, h4, not_lt.mp hq, le_rfl, h7, h8, h9, h10, h11, h12, h13⟩
  case economy =>
    cases m <;> simp only [stepWaybill, waybill_economy] at he <;>
      try exact Step.noConfusion he
    case skip =>
      injection he with hA hB
      subst hA; subst hB
      exact ⟨h1, h2, h3, h4, h5, h6, le_rfl, h8, h9, h10, h11, h12, h13⟩
    case num q =>
      split_ifs at he with hq
      injection he with hA hB
      subst hA; subst hB
      exact ⟨h1, h2, h3, h4, h5, h6, not_lt.mp hq, h8, h9, h10, h11, h12, h13⟩
  case fuel_end_choice =>
    cases m <;> simp only [stepWaybill, waybill_fuel_end_choice] at he <;>
      try exact Step.noConfusion he
    case autoCalc =>
      split_ifs at he
    case manualEnd =>
      injection he with hA hB
      subst hA; subst hB
      exact ⟨h1, h2, h3, h4, h5, h6, h7, h8, h9, h10, h11, h12, h13⟩
    case addRefuel =>
      injection he with hA hB
      subst hA; subst hB
      exact ⟨h1, h2, h3, h4, h5, h6, h7, h8, h9, h10, h11, h12, h13⟩
  case fuel_refuel =>
    cases m <;> simp only [stepWaybill, waybill_fuel_refuel] at he <;>
      try exact Step.noConfusion he
    case num q =>
      split_ifs at he with hq
      injection he with hA hB
      subst hA; subst hB
      exact ⟨h1, h2, h3, h4, h5, h6, h7, not_lt.mp hq, h9, h10, h11, h12, h13⟩
  case fuel_end_manual =>
    cases m <;> simp only [stepWaybill, waybill_fuel_end_manual] at he <;>
      try exact Step.noConfusion he
    case num q =>
      split_ifs at he

/-- Every reachable session satisfies the invariant. -/
theorem reachable_inv {st : Stage} {d : WaybillData} (h : Reachable st d) : Inv d := by
  induction h with
  | init v user last hv hl => exact inv_start user hv hl inv_empty
  | step st d m st' d' h he ih => exact inv_step ih he
  | reenter st d v user last hv hl h ih => exact inv_start user hv hl ih

/-- The vehicle of the concrete runs satisfies the table constraints. -/
theorem vW_ok : VehicleOK vW :=
  ⟨by norm_num [vW], by norm_num [vW], by norm_num [vW], by norm_num [vW]⟩

/-- The concrete run `wb0 … wb7` stays inside the reachable states of the
flow, ending at the fuel-end choice stage. -/
theorem reach_wb7 : Reachable Stage.fuel_end_choice wb7 := by
  have h0 : Reachable Stage.start_time wb0 := Reachable.init vW 7 none vW_ok trivial
  have h1 : Reachable Stage.odo_start wb1 :=
    Reachable.step _ _ (Msg.text "08:00") _ _ h0 rfl
  have h2 : Reachable Stage.fuel_start wb2 := Reachable.step _ _ (Msg.num 0) _ _ h1 rfl
  have h3 : Reachable Stage.end_time wb3 := Reachable.step _ _ (Msg.num 10) _ _ h2 rfl
  have h4 : Reachable Stage.odo_end wb4 :=
    Reachable.step _ _ (Msg.text "17:00") _ _ h3 rfl
  have h5 : Reachable Stage.overuse_choice wb5 := Reachable.step _ _ (Msg.num 0) _ _ h4 rfl
  have h6 : Reachable Stage.economy wb6 := Reachable.step _ _ Msg.noOveruse _ _ h5 rfl
  exact Reachable.step _ _ Msg.skip _ _ h6 rfl

/-- Choosing manual entry from `wb7` reaches the manual fuel-end stage. -/
theorem reach_wb8 : Reachable Stage.fuel_end_manual wb8 :=
  Reachable.step _ _ Msg.manualEnd _ _ reach_wb7 rfl

/-- The restarted run `sc1 … sc10` is reachable: it enters the refuel
branch, enters 20 liters, restarts the flow mid-way through the
new-waybill button (which merges into the abandoned session), and walks
the restarted flow back to the fuel-end choice. -/
theorem reach_sc10 : Reachable Stage.fuel_end_choice sc10 := by
  have g1 : Reachable Stage.fuel_refuel sc1 :=
    Reachable.step _ _ Msg.addRefuel _ _ reach_wb7 rfl
  have g2 : Reachable Stage.fuel_end_manual sc2 :=
    Reachable.step _ _ (Msg.num 20) _ _ g1 rfl
  have g3 : Reachable Stage.start_time sc3 :=
    Reachable.reenter Stage.fuel_end_manual sc2 vW 7 none vW_ok trivial g2
  have g4 : Reachable Stage.odo_start sc4 :=
    Reachable.step _ _ (Msg.text "08:00") _ _ g3 rfl
  have g5 : Reachable Stage.fuel_start sc5 := Reachable.step _ _ (Msg.num 0) _ _ g4 rfl
  have g6 : Reachable Stage.end_time sc6 := Reachable.step _ _ (Msg.num 10) _ _ g5 rfl
  have g7 : Reachable Stage.odo_end sc7 :=
    Reachable.step _ _ (Msg.text "17:00") _ _ g6 rfl
  have g8 : Reachable Stage.overuse_choice sc8 := Reachable.step _ _ (Msg.num 0) _ _ g7 rfl
  have g9 : Reachable Stage.economy sc9 := Reachable.step _ _ Msg.noOveruse _ _ g8 rfl
  exact Reachable.step _ _ Msg.skip _ _ g9 rfl

/-- C3: for every norm, overuse and economy value collected in the
create-waybill flow, the actual fuel consumption computed in the
auto-computed fuel-end branch equals norm + overuse - economy (the branch
saves whenever the resulting balance is non-negative). -/
theorem fuel_end_choice_auto_actual (d : WaybillData)
    (h : 0 ≤ d.fuel_start - (d.fuel_norm + d.overuse - d.economy)) :
    ∃ d', waybill_fuel_end_choice d Msg.autoCalc = Step.finish d' ∧
      d'.fuel_actual = d.fuel_norm + d.overuse - d.economy := by
  have he : waybill_fuel_end_choice d Msg.autoCalc = Step.finish
      { d with fuel_actual := d.fuel_norm + d.overuse - d.economy,
               fuel_end := d.fuel_start - (d.fuel_norm + d.overuse - d.economy),
               fuel_end_manual := 0 } := by
    show (if d.fuel_start - (d.fuel_norm + d.overuse - d.economy) < 0 then Step.stay
      else Step.finish
        { d with fuel_actual := d.fuel_norm + d.overuse - d.economy,
                 fuel_end := d.fuel_start - (d.fuel_norm + d.overuse - d.economy),
                 fuel_end_manual := 0 }) = _
    rw [if_neg (not_lt.mpr h)]
  exact ⟨_, he, rfl⟩

/-- C3 witness: norm 20, overuse 10 and economy 3 give an actual
consumption of 27 liters. -/
theorem fuel_end_choice_auto_actual_witness :
    (Step.savedData (waybill_fuel_end_choice dC3 Msg.autoCalc)).map WaybillData.fuel_actual
      = some 27 := by
  obtain ⟨d', he, hfa⟩ := fuel_end_choice_auto_actual dC3 (by norm_num [dC3, emptyData])
  rw [he]
  simp only [Step.savedData, Option.map_some']
  rw [hfa]
  norm_num [dC3, emptyData]

/-- C1 counterexample: at the odometer-end stage with a stored fuel rate
of 10 and readings 0 to 200 km, the code stores a norm of 2000 liters,
not the 20 liters that `distance * fuel_rate / 100` would give. -/
theorem waybill_norm_counterexample :
    (Step.nextData (waybill_odo_end dC1 (Msg.num 200))).map WaybillData.fuel_norm
      = some 2000 ∧ (2000 : ℚ) ≠ 200 * 10 / 100 := by
  constructor
  · have h0 : ¬ ((200 : ℚ) < dC1.odo_start) := by norm_num [dC1, emptyData]
    simp only [waybill_odo_end]
    rw [if_neg h0]
    simp only [Step.nextData, Option.map_some', Option.some.injEq]
    norm_num [dC1, emptyData]
  · norm_num

/-- C1 amended: the norm fuel consumption stored at the odometer-end
stage equals distance * fuel_rate, where the vehicle fuel rate is in
liters per km (a rate of 0.1 l/km over 200 km gives 20 liters). -/
theorem waybill_odo_end_norm (d : WaybillData) (q : ℚ) (h : d.odo_start ≤ q) :
    ∃ d', waybill_odo_end d (Msg.num q) = Step.next Stage.overuse_choice d' ∧
      d'.distance = q - d.odo_start ∧ d'.fuel_norm = d'.distance * d.fuel_rate := by
  have he : waybill_odo_end d (Msg.num q) = Step.next Stage.overuse_choice
      { d with odo_end := q, distance := q - d.odo_start,
               fuel_norm := (q - d.odo_start) * d.fuel_rate } := by
    simp only [waybill_odo_end]
    rw [if_neg (not_lt.mpr h)]
  exact ⟨_, he, rfl, rfl⟩

/-- C1 amended witness: readings 0 to 200 km at a rate of 0.1 liters per
km give a stored norm of 20 liters. -/
theorem waybill_odo_end_norm_witness :
    (Step.nextData (waybill_odo_end dC1w (Msg.num 200))).map WaybillData.fuel_norm
      = some 20 := by
  obtain ⟨d', he, hd, hn⟩ := waybill_odo_end_norm dC1w 200 (by norm_num [dC1w, emptyData])
  rw [he]
  simp only [Step.nextData, Option.map_some', Option.some.injEq]
  rw [hn, hd]
  norm_num [dC1w, emptyData]

/-- C5: with a non-negative stored starting reading, an ending reading at
least the starting one advances to the overuse-choice stage with
distance = odo_end - odo_start, while an ending reading below the
starting one leaves the handler at the same stage with the session
unchanged. -/
theorem waybill_odo_end_guard (d : WaybillData) (q : ℚ)
    (h0 : 0 ≤ d.odo_start) (hq : 0 ≤ q) :
    (d.odo_start ≤ q →
      ∃ d', waybill_odo_end d (Msg.num q) = Step.next Stage.overuse_choice d' ∧
        d'.distance = q - d.odo_start ∧ d'.odo_end = q) ∧
    (q < d.odo_start → waybill_odo_end d (Msg.num q) = Step.stay) := by
  constructor
  · intro hle
    have he : waybill_odo_end d (Msg.num q) = Step.next Stage.overuse_choice
        { d with odo_end := q, distance := q - d.odo_start,
                 fuel_norm := (q - d.odo_start) * d.fuel_rate } := by
      simp only [waybill_odo_end]
      rw [if_neg (not_lt.mpr hle)]
    exact ⟨_, he, rfl, rfl⟩
  · intro hlt
    simp only [waybill_odo_end]
    rw [if_pos hlt]

/-- C5 witness: with a stored start of 100 km, an ending reading of 150
advances with distance 50, while an ending reading of 50 re-prompts. -/
theorem waybill_odo_end_guard_witness :
    (Step.nextData (waybill_odo_end dC5 (Msg.num 150))).map WaybillData.distance
      = some 50 ∧ waybill_odo_end dC5 (Msg.num 50) = Step.stay := by
  constructor
  · obtain ⟨d', he, hd, -⟩ :=
      (waybill_odo_end_guard dC5 150 (by norm_num [dC5, emptyData]) (by norm_num)).1
        (by norm_num [dC5, emptyData])
    rw [he]
    simp only [Step.nextData, Option.map_some', Option.some.injEq]
    rw [hd]
    norm_num [dC5, emptyData]
  · exact (waybill_odo_end_guard dC5 50 (by norm_num [dC5, emptyData]) (by norm_num)).2
      (by norm_num [dC5, emptyData])

/-- C7: after `save_waybill` is invoked by the terminal stage, the
per-user session is cleared both when the save succeeds and when it
fails. -/
theorem save_and_show_clears_session (dbError : Bool) (db : Database.WaybillsDB)
    (d : WaybillData) :
    (save_and_show_waybill dbError db d).2.2 = none := by
  cases dbError <;> rfl

/-- C2 counterexample: a run that reaches the manual fuel-end entry with
fuel_start 10, norm 5 (10 km at 0.5 l/km) and an entered ending balance
of 50 saves a refuel of 0, not the back-derived
max(0, entered_end - computed_end) = 45 the claim describes. -/
theorem waybill_refuel_not_backderived :
    (runMsgs (startWaybill emptyData vC2 7 none).1
        (startWaybill emptyData vC2 7 none).2 msgsC2).map
      WaybillData.fuel_refuel = some 0 ∧
    (0 : ℚ) ≠ max 0 (50 - (10 - ((10 - 0) * (1/2) + 0 - 0))) := by
  constructor
  · rfl
  · have hx : (0:ℚ) ≤ 50 - (10 - ((10 - 0) * (1/2) + 0 - 0)) := by norm_num
    rw [max_eq_right hx]
    norm_num

/-- C2 amended: in the manual branch the refuel amount is not
back-derived — the session value (user-entered at the refuel stage,
default 0) is saved unchanged — and instead the actual consumption is
back-derived from the entered balance as
fuel_start + fuel_refuel - entered_end, so the saved record satisfies
fuel_end = fuel_start + fuel_refuel - actual_consumption by
construction; the auto-computed branch sets
fuel_end = fuel_start - actual_consumption, carrying the stored refuel
through unchanged and ignoring it in the balance, so the claimed
equation holds there exactly when the stored refuel is zero.  This is
stated for arbitrary session contents, fresh or stale. -/
theorem waybill_fuel_balance (d : WaybillData) (q : ℚ) :
    (∀ d', waybill_fuel_end_manual d (Msg.num q) = Step.finish d' →
      d'.fuel_actual = d'.fuel_start + d'.fuel_refuel - d'.fuel_end ∧
      d'.fuel_end = d'.fuel_start + d'.fuel_refuel - d'.fuel_actual ∧
      d'.fuel_refuel = d.fuel_refuel ∧ d'.fuel_end = q) ∧
    (∀ d', waybill_fuel_end_choice d Msg.autoCalc = Step.finish d' →
      d'.fuel_end = d'.fuel_start - d'.fuel_actual ∧
      d'.fuel_refuel = d.fuel_refuel ∧
      (d.fuel_refuel = 0 →
        d'.fuel_end = d'.fuel_start + d'.fuel_refuel - d'.fuel_actual)) := by
  constructor
  · intro d' he
    simp only [waybill_fuel_end_manual] at he
    split_ifs at he with hqneg
    injection he with hB
    subst hB
    refine ⟨rfl, ?_, rfl, rfl⟩
    show q = d.fuel_start + d.fuel_refuel - (d.fuel_start + d.fuel_refuel - q)
    ring
  · intro d' he
    simp only [waybill_fuel_end_choice] at he
    split_ifs at he with hneg
    injection he with hB
    subst hB
    refine ⟨rfl, rfl, ?_⟩
    intro hz
    show d.fuel_start - (d.fuel_norm + d.overuse - d.economy)
      = d.fuel_start + d.fuel_refuel - (d.fuel_norm + d.overuse - d.economy)
    rw [hz]
    ring

/-- C2 amended witness: the balance equation on the record saved from
`dC2w` (manual entry, refuel 3, entered balance 4) and on the record
saved from `dC2a` (auto branch with refuel 0). -/
theorem waybill_fuel_balance_witness :
    dC2w'.fuel_end = dC2w'.fuel_start + dC2w'.fuel_refuel - dC2w'.fuel_actual ∧
    dC2a'.fuel_end = dC2a'.fuel_start + dC2a'.fuel_refuel - dC2a'.fuel_actual := by
  constructor
  · exact ((waybill_fuel_balance dC2w 4).1 dC2w' rfl).2.1
  · have hauto : waybill_fuel_end_choice dC2a Msg.autoCalc = Step.finish dC2a' := by
      show (if dC2a.fuel_start - (dC2a.fuel_norm + dC2a.overuse - dC2a.economy) < 0
        then Step.stay else Step.finish dC2a') = Step.finish dC2a'
      rw [if_neg (by norm_num [dC2a, emptyData])]
    exact ((waybill_fuel_balance dC2a 0).2 dC2a' hauto).2.2 (by norm_num [dC2a, emptyData])

/-- A mid-flow restart leaks the refuel of the abandoned flow into the
next saved record: from the reachable state `sc10` (restarted after a
refuel of 20 was entered, never visiting the refuel stage again) the
auto branch saves a record carrying fuel_refuel = 20 while computing the
balance without it, so the saved record violates
fuel_end = fuel_start + fuel_refuel - fuel_actual.  This reachable
violation is what confines the balance equation of the auto branch to
sessions whose stored refuel is zero. -/
theorem auto_branch_stale_refuel :
    Reachable Stage.fuel_end_choice sc10 ∧ sc10.fuel_refuel = 20 ∧
    (∀ d', stepWaybill Stage.fuel_end_choice sc10 Msg.autoCalc = Step.finish d' →
      d'.fuel_refuel = 20 ∧
      d'.fuel_end ≠ d'.fuel_start + d'.fuel_refuel - d'.fuel_actual) := by
  refine ⟨reach_sc10, rfl, ?_⟩
  intro d' he
  have hfs : sc10.fuel_start = 10 := rfl
  have hfr : sc10.fuel_refuel = 20 := rfl
  have hfn : sc10.fuel_norm = (0 - 0) * 1 := rfl
  have hov : sc10.overuse = 0 := rfl
  have hec : sc10.economy = 0 := rfl
  simp only [stepWaybill, waybill_fuel_end_choice] at he
  split_ifs at he with hc
  injection he with hB
  subst hB
  refine ⟨rfl, ?_⟩
  show sc10.fuel_start - (sc10.fuel_norm + sc10.overuse - sc10.economy)
    ≠ sc10.fuel_start + sc10.fuel_refuel - (sc10.fuel_norm + sc10.overuse - sc10.economy)
  rw [hfs, hfr, hfn, hov, hec]
  norm_num

/-- C6 counterexample: a run of accepted inputs through the manual
fuel-end path saves a record whose actual consumption 10 + 0 - 50 is
negative, violating the all-quantities-non-negative invariant. -/
theorem waybill_saved_negative_actual :
    (runMsgs (startWaybill emptyData vC6 7 none).1
        (startWaybill emptyData vC6 7 none).2 msgsC6).map
      WaybillData.fuel_actual = some (10 + 0 - 50) ∧ ((10 : ℚ) + 0 - 50) < 0 :=
  ⟨rfl, by norm_num⟩

/-- C6 amended: every record saved by the flow has non-negative distance,
hours, norm, overuse, idle hours, economy, refuel and ending fuel; the
actual consumption, however, is not covered and can be negative on the
manual fuel-end path. -/
theorem waybill_saved_nonneg (st : Stage) (d : WaybillData) (m : Msg) (d' : WaybillData)
    (hr : Reachable st d) (he : stepWaybill st d m = Step.finish d') :
    0 ≤ d'.distance ∧ 0 ≤ d'.hours ∧ 0 ≤ d'.fuel_norm ∧ 0 ≤ d'.overuse ∧
    0 ≤ d'.overuse_hours ∧ 0 ≤ d'.economy ∧ 0 ≤ d'.fuel_refuel ∧ 0 ≤ d'.fuel_end := by
  obtain ⟨h1, h2, h3, h4, h5, h6, h7, h8, h9, h10, h11, h12, h13⟩ := reachable_inv hr
  cases st <;> cases m <;>
    simp only [stepWaybill, waybill_start_time, waybill_initial_data_choice,
      waybill_odo_start, waybill_fuel_start, waybill_end_time, waybill_odo_end,
      waybill_overuse_choice, waybill_overuse_hours, waybill_overuse_manual,
      waybill_economy, waybill_fuel_end_choice, waybill_fuel_refuel,
      waybill_fuel_end_manual] at he <;>
    try exact Step.noConfusion he
  case start_time.text s => split_ifs at he
  case odo_start.num q => split_ifs at he
  case fuel_start.num q => split_ifs at he
  case end_time.text s =>
    split_ifs at he
    cases hst : d.start_time <;> rw [hst] at he <;> exact Step.noConfusion he
  case odo_end.num q => split_ifs at he
  case overuse_hours.num q => split_ifs at he
  case overuse_manual.num q => split_ifs at he
  case economy.num q => split_ifs at he
  case fuel_refuel.num q => split_ifs at he
  case fuel_end_choice.autoCalc =>
    split_ifs at he with hneg
    injection he with hB
    subst hB
    exact ⟨h3, h9, h4, h5, h6, h7, h8, not_lt.mp hneg⟩
  case fuel_end_manual.num q =>
    split_ifs at he with hneg
    injection he with hB
    subst hB
    exact ⟨h3, h9, h4, h5, h6, h7, h8, not_lt.mp hneg⟩

/-- C6 amended witness: the listed quantities are non-negative on the
record saved by the concrete manual-entry run. -/
theorem waybill_saved_nonneg_witness :
    0 ≤ wb9.distance ∧ 0 ≤ wb9.hours ∧ 0 ≤ wb9.fuel_norm ∧ 0 ≤ wb9.overuse ∧
    0 ≤ wb9.overuse_hours ∧ 0 ≤ wb9.economy ∧ 0 ≤ wb9.fuel_refuel ∧ 0 ≤ wb9.fuel_end :=
  waybill_saved_nonneg Stage.fuel_end_manual wb8 (Msg.num 4) wb9 reach_wb8 rfl

/-- C8 counterexample: inserting a plate that already exists returns the
same outcome (`none`) as a generic storage failure, so the caller cannot
distinguish the two from the result of `add_vehicle`. -/
theorem add_vehicle_duplicate_indistinguishable :
    (Database.add_vehicle false dbDup "a123" 1 2).1 = none ∧
    (Database.add_vehicle true dbEmpty "a123" 1 2).1 = none ∧
    (Database.add_vehicle false dbDup "a123" 1 2).1
      = (Database.add_vehicle true dbEmpty "a123" 1 2).1 :=
  ⟨rfl, rfl, rfl⟩

/-- C8 amended: a duplicate plate makes `add_vehicle` return `none` —
the same value a generic storage failure produces, the duplicate being
recognized only in logging — while a successful insert returns the new
row id. -/
theorem add_vehicle_outcomes (db : VehiclesDB) (number : String) (fr ir : ℚ) :
    ((db.rows.any fun v => v.number == strUpper number) = true →
      (Database.add_vehicle false db number fr ir).1 = none) ∧
    ((db.rows.any fun v => v.number == strUpper number) = false →
      (Database.add_vehicle false db number fr ir).1 = some db.nextId) ∧
    (Database.add_vehicle true db number fr ir).1 = none := by
  refine ⟨fun h => ?_, fun h => ?_, rfl⟩
  · simp [Database.add_vehicle, h]
  · simp [Database.add_vehicle, h]

/-- C8 amended witness: inserting A123 into a table already holding it
returns `none`; inserting it into an empty table returns id 1. -/
theorem add_vehicle_outcomes_witness :
    (Database.add_vehicle false dbDup "A123" 3 2).1 = none ∧
    (Database.add_vehicle false dbEmpty "A123" 3 2).1 = some 1 :=
  ⟨(add_vehicle_outcomes dbDup "A123" 3 2).1 (by decide),
   (add_vehicle_outcomes dbEmpty "A123" 3 2).2.1 (by decide)⟩

/-- C9 counterexample: `validate_time` rejects both the `HH.MM` variant
and the variant carrying seconds, which the claim says it accepts. -/
theorem validate_time_variants_rejected :
    validate_time "08.30" = false ∧ validate_time "08:30:00" = false :=
  ⟨rfl, rfl⟩

/-- C9 amended: `validate_time` returns true for every `HH:MM` string
with hour at most 23 and minute at most 59 (zero padding optional, as in
8:5), returns false for the `HH.MM` variant and for strings carrying
seconds, and returns only a boolean — no normalized value is produced. -/
theorem validate_time_accepts_hhmm :
    (∀ h < 24, ∀ m < 60, validate_time (String.mk (padTwo h ++ ':' :: padTwo m)) = true) ∧
    validate_time "8:5" = true ∧
    validate_time "08.30" = false ∧ validate_time "08:30:00" = false := by
  refine ⟨?_, rfl, rfl, rfl⟩
  decide

/-- C9 amended witness: the zero-padded rendering of 9:05 is accepted. -/
theorem validate_time_accepts_hhmm_witness : validate_time "09:05" = true :=
  validate_time_accepts_hhmm.1 9 (by norm_num) 5 (by norm_num)

/-- C4: for valid times with end earlier than start, the elapsed-hours
computation adds 24 hours for the midnight crossing, yields a positive
value of at most 24 hours, and rounds to two decimal places (the result
is a whole number of hundredths). -/
theorem calculate_hours_midnight (s e : String) (hs ms he2 me2 : Nat)
    (h1 : parseHM s = some (hs, ms)) (h2 : parseHM e = some (he2, me2))
    (hlt : he2 * 60 + me2 < hs * 60 + ms) :
    0 < calculate_hours s e ∧ calculate_hours s e ≤ 24 ∧
    calculate_hours s e
      = round2 (((he2 * 60 + me2 + 1440 - (hs * 60 + ms) : ℕ) : ℚ) / 60) ∧
    ∃ k : ℕ, calculate_hours s e = (k : ℚ) / 100 := by
  obtain ⟨hhs, hms⟩ := parseHM_bounds h1
  have heq : calculate_hours s e
      = round2 (((he2 * 60 + me2 + 1440 - (hs * 60 + ms) : ℕ) : ℚ) / 60) := by
    unfold calculate_hours
    rw [h1, h2]
    show round2 ((((if he2 * 60 + me2 < hs * 60 + ms then
        he2 * 60 + me2 + 1440 - (hs * 60 + ms)
      else he2 * 60 + me2 - (hs * 60 + ms)) : ℕ) : ℚ) / 60) = _
    rw [if_pos hlt]
  have hd1 : 1 ≤ he2 * 60 + me2 + 1440 - (hs * 60 + ms) := by omega
  have hd2 : he2 * 60 + me2 + 1440 - (hs * 60 + ms) ≤ 1439 := by omega
  have hq1 : (1 : ℚ) ≤ ((he2 * 60 + me2 + 1440 - (hs * 60 + ms) : ℕ) : ℚ) := by
    exact_mod_cast hd1
  have hq2 : ((he2 * 60 + me2 + 1440 - (hs * 60 + ms) : ℕ) : ℚ) ≤ 1439 := by
    exact_mod_cast hd2
  refine ⟨?_, ?_, heq, ?_⟩
  · rw [heq]
    exact round2_pos (by linarith)
  · rw [heq]
    exact round2_le24 (by linarith)
  · rw [heq]
    exact round2_hundredths (by positivity)

/-- C4 witness: from 23:30 to 00:30 the computation returns a positive
duration of at most 24 hours. -/
theorem calculate_hours_midnight_witness :
    0 < calculate_hours "23:30" "00:30" ∧ calculate_hours "23:30" "00:30" ≤ 24 := by
  have h := calculate_hours_midnight "23:30" "00:30" 23 30 0 30 rfl rfl (by norm_num)
  exact ⟨h.1, h.2.1⟩

/-- C10: the elapsed-hours computation is total — the exception handler
returns 0.0 whenever either string fails to parse as HH:MM — and two
equal times give 0.0 rather than a 24-hour crossing. -/
theorem calculate_hours_total (s e : String) :
    ((parseHM s = none ∨ parseHM e = none) → calculate_hours s e = 0) ∧
    (∀ p : Nat × Nat, parseHM s = some p → parseHM e = some p →
      calculate_hours s e = 0) := by
  constructor
  · intro h
    unfold calculate_hours
    rcases hs : parseHM s with _ | ps <;> rcases hee : parseHM e with _ | pe <;> try rfl
    rcases h with h | h
    · rw [h] at hs
      exact Option.noConfusion hs
    · rw [h] at hee
      exact Option.noConfusion hee
  · intro p hp1 hp2
    unfold calculate_hours
    rw [hp1, hp2]
    show round2 ((((if p.1 * 60 + p.2 < p.1 * 60 + p.2 then
        p.1 * 60 + p.2 + 1440 - (p.1 * 60 + p.2)
      else p.1 * 60 + p.2 - (p.1 * 60 + p.2)) : ℕ) : ℚ) / 60) = 0
    rw [if_neg (lt_irrefl _), Nat.sub_self]
    norm_num [round2_zero]

/-- C10 witness: a non-time string yields 0, and equal start and end
times yield 0. -/
theorem calculate_hours_total_witness :
    calculate_hours "abc" "08:30" = 0 ∧ calculate_hours "08:30" "08:30" = 0 :=
  ⟨(calculate_hours_total "abc" "08:30").1 (Or.inl rfl),
   (calculate_hours_total "08:30" "08:30").2 (8, 30) rfl rfl⟩

end Waylist
